import Mathlib

/-!
Verification of the attribute-validation layer of `neutron-lib`
(`neutron_lib/api/v2/attributes.py`), the policy wrapper
(`neutron_lib/policy.py`) and the test helper
(`neutron_lib/tests/tools.py`).

The Python source is shallowly embedded: Python values become the `PyVal`
inductive, raised exceptions become the `Except PyExc` monad, validator
functions returning `None`-or-message become functions into
`Except PyExc (Option String)`, and the in-place mutation of the target
dictionary performed by `_validate_dict` is made explicit by returning the
updated dictionary alongside the validation message.

External collaborators (the `netaddr` address-parsing library,
`oslo_utils.uuidutils`, the `re` module, the `oslo_policy` enforcement
engine and the few constants imported from `neutron_lib.common.constants`,
which is not part of the sources) are modelled; each model carries a doc
comment describing its scope.
-/

namespace NeutronLib

/-! ### Characters and low-level string helpers -/

/-- The whitespace class of Python's `re` pattern `\s`:
space, tab, newline, carriage return, vertical tab, form feed. -/
def isPyWs (c : Char) : Bool :=
  c = ' ' || c = '\t' || c = '\n' || c = '\r' || c = '\x0b' || c = '\x0c'

/-- ASCII decimal digit. -/
def isDecDigit (c : Char) : Bool := '0' ≤ c && c ≤ '9'

/-- ASCII hexadecimal digit (`[0-9A-Fa-f]`, as in `HEX_ELEM`). -/
def isHexDigit2 (c : Char) : Bool :=
  isDecDigit c || ('a' ≤ c && c ≤ 'f') || ('A' ≤ c && c ≤ 'F')

/-- Value of a decimal digit character. -/
def decDigitVal (c : Char) : Nat := c.toNat - 48

/-- Value of a hexadecimal digit character. -/
def hexDigitVal (c : Char) : Nat :=
  if isDecDigit c then c.toNat - 48
  else if 'a' ≤ c && c ≤ 'f' then c.toNat - 87
  else c.toNat - 55

/-- Split a character list at every occurrence of a separator, like
Python's `str.split(sep)`: `n` separators yield `n + 1` (possibly empty)
parts. -/
def splitSep (sep : Char) : List Char → List (List Char)
  | [] => [[]]
  | c :: cs =>
    if c = sep then [] :: splitSep sep cs
    else
      match splitSep sep cs with
      | [] => [[c]]
      | p :: ps => (c :: p) :: ps

/-- Split at the first occurrence of a separator only, like Python's
`str.split(sep, 1)`: one part if the separator is absent, two otherwise. -/
def splitSepOnce (sep : Char) : List Char → List (List Char)
  | [] => [[]]
  | c :: cs =>
    if c = sep then [[], cs]
    else
      match splitSepOnce sep cs with
      | [] => [[c]]
      | p :: ps => (c :: p) :: ps

/-- Python's `str.strip()` on a character list: drop leading and trailing
whitespace. -/
def stripChars (l : List Char) : List Char :=
  ((l.dropWhile isPyWs).reverse.dropWhile isPyWs).reverse

/-- Python's `str.strip()`. -/
def pyStrip (s : String) : String := ⟨stripChars s.data⟩

/-- `True` iff the string contains a character matching `re`'s `\s`
(this is `re.search(r'\s', data)` as used by `_validate_no_whitespace`). -/
def hasPyWs (s : String) : Bool := s.data.any isPyWs

/-- Parse a non-empty all-decimal character list (helper for the models of
`int()` and of the address parsers). -/
def decToNatCore : List Char → Nat → Option Nat
  | [], acc => some acc
  | c :: cs, acc =>
    if isDecDigit c then decToNatCore cs (acc * 10 + decDigitVal c)
    else none

/-- `decToNat? l` is `some n` iff `l` is a non-empty string of decimal
digits with value `n`. -/
def decToNat? (l : List Char) : Option Nat :=
  match l with
  | [] => none
  | _ => decToNatCore l 0

/-- Parse a non-empty all-hexadecimal character list. -/
def hexToNatCore : List Char → Nat → Option Nat
  | [], acc => some acc
  | c :: cs, acc =>
    if isHexDigit2 c then hexToNatCore cs (acc * 16 + hexDigitVal c)
    else none

/-- `hexToNat? l` is `some n` iff `l` is a non-empty string of hex digits
with value `n`. -/
def hexToNat? (l : List Char) : Option Nat :=
  match l with
  | [] => none
  | _ => hexToNatCore l 0

/-! ### Python values and exceptions -/

/-- Embedded Python values as they appear in the validated payloads:
`None`, booleans, integers, strings, lists and string-keyed dictionaries
(the dictionaries of the API payloads all have string keys).  Floats,
tuples and arbitrary objects do not occur in the properties under
verification and are not modelled. -/
inductive PyVal where
  | none
  | bool (b : Bool)
  | int (n : Int)
  | str (s : String)
  | list (xs : List PyVal)
  | dict (xs : List (String × PyVal))
deriving Repr

/-- Embedded Python exceptions: the typed `InvalidInput` error of
`neutron_lib.common.exceptions` (carrying its `error_message`), and the
builtin exception classes that the validators can meet.  All of them are
subclasses of `Exception`, so a bare `except Exception:` catches every
constructor. -/
inductive PyExc where
  | invalidInput (msg : String)
  | typeError
  | valueError
  | keyError
  | attributeError
deriving Repr, DecidableEq

mutual

/-- Python `==` on embedded values.  Equality is structural; Python's
cross-type numeric equalities (`1 == True`, `1 == 1.0`) are not modelled
because no validated payload mixes numeric types in one container. -/
def pyEq : PyVal → PyVal → Bool
  | .none, .none => true
  | .bool a, .bool b => a = b
  | .int a, .int b => a = b
  | .str a, .str b => a = b
  | .list xs, .list ys => pyEqList xs ys
  | .dict xs, .dict ys => pyEqDict xs ys
  | _, _ => false

/-- Elementwise equality of lists. -/
def pyEqList : List PyVal → List PyVal → Bool
  | [], [] => true
  | x :: xs, y :: ys => pyEq x y && pyEqList xs ys
  | _, _ => false

/-- Equality of dictionaries, compared as ordered association lists; the
payload dictionaries under validation never rely on key-order-insensitive
dictionary equality. -/
def pyEqDict : List (String × PyVal) → List (String × PyVal) → Bool
  | [], [] => true
  | (k, v) :: xs, (k₂, v₂) :: ys => k = k₂ && pyEq v v₂ && pyEqDict xs ys
  | _, _ => false

end

/-- Decimal rendering of an integer (Python `str` of an `int`). -/
def intToDec (n : Int) : String :=
  if n < 0 then "-" ++ toString n.natAbs else toString n.natAbs

mutual

/-- Python `repr` of an embedded value (used when containers render their
elements).  String escaping inside `repr` of a string is not modelled:
the payload strings under verification contain no quotes. -/
def pyRepr : PyVal → String
  | .none => "None"
  | .bool true => "True"
  | .bool false => "False"
  | .int n => intToDec n
  | .str s => "'" ++ s ++ "'"
  | .list xs => "[" ++ pyReprList xs ++ "]"
  | .dict xs => "\x7b" ++ pyReprDict xs ++ "\x7d"

/-- `repr` of list elements, comma-separated. -/
def pyReprList : List PyVal → String
  | [] => ""
  | [x] => pyRepr x
  | x :: xs => pyRepr x ++ ", " ++ pyReprList xs

/-- `repr` of dictionary items, comma-separated. -/
def pyReprDict : List (String × PyVal) → String
  | [] => ""
  | [(k, v)] => "'" ++ k ++ "': " ++ pyRepr v
  | (k, v) :: xs => "'" ++ k ++ "': " ++ pyRepr v ++ ", " ++ pyReprDict xs

end

/-- Python `str` of an embedded value: identical to `repr` except on
strings, which render without quotes (this is what the `%s` of the error
message templates applies). -/
def pyStr : PyVal → String
  | .str s => s
  | v => pyRepr v

/-! ### Dictionary (association list) helpers -/

/-- `data.get(key)`: `None` when the key is absent. -/
def dictGet (xs : List (String × PyVal)) (k : String) : PyVal :=
  match xs.find? (fun kv => kv.1 = k) with
  | some kv => kv.2
  | Option.none => .none

/-- `key in data`. -/
def dictHasKey (xs : List (String × PyVal)) (k : String) : Bool :=
  xs.any (fun kv => kv.1 = k)

/-- `data[key] = v`: replace the value of an existing key in place,
append the key otherwise (Python dictionaries preserve insertion order). -/
def dictSet (xs : List (String × PyVal)) (k : String) (v : PyVal) :
    List (String × PyVal) :=
  match xs with
  | [] => [(k, v)]
  | (k₂, v₂) :: rest =>
    if k₂ = k then (k₂, v) :: rest else (k₂, v₂) :: dictSet rest k v

/-- The keys of a dictionary, in order. -/
def dictKeys (xs : List (String × PyVal)) : List String := xs.map Prod.fst

/-! ### Python sets of strings

Python `set` iteration order is unspecified (it depends on the string
hashes, which are randomized per process).  The model represents a set of
strings canonically as a duplicate-free *sorted* list; every place whose
observable behaviour depends on the unspecified iteration order (the
rendering of a set in a diagnostic, `list(...)` of a set of collected
values) therefore produces the canonical order. -/

/-- Lexicographic comparison of character lists by code point (the order
used for the canonical set representation). -/
def charListLt : List Char → List Char → Bool
  | [], [] => false
  | [], _ :: _ => true
  | _ :: _, [] => false
  | a :: as, b :: bs =>
    if a.toNat < b.toNat then true
    else if b.toNat < a.toNat then false
    else charListLt as bs

/-- Insert a string into a sorted duplicate-free list. -/
def strInsert (s : String) : List String → List String
  | [] => [s]
  | t :: ts =>
    if s = t then t :: ts
    else if charListLt s.data t.data then s :: t :: ts
    else t :: strInsert s ts

/-- `set(l)` for a list of strings, in canonical (sorted) order. -/
def pySetOf (l : List String) : List String :=
  l.foldl (fun acc s => strInsert s acc) []

/-- `expected.issubset(provided)` on the underlying sets. -/
def strSubset (xs ys : List String) : Bool :=
  xs.all (fun x => ys.contains x)

/-- Set equality (`__eq__` of two sets) on the underlying sets. -/
def strSetEq (xs ys : List String) : Bool :=
  pySetOf xs = pySetOf ys

/-- Comma-separated `repr` rendering of strings, as inside a list or set
display. -/
def renderQuoted : List String → String
  | [] => ""
  | [s] => "'" ++ s ++ "'"
  | s :: rest => "'" ++ s ++ "', " ++ renderQuoted rest

/-- `str` of a Python list of strings, e.g. `['a', 'b']`. -/
def renderStrList (l : List String) : String :=
  "[" ++ renderQuoted l ++ "]"

/-- `str` of a Python set of strings in the canonical (sorted) iteration
order of the model. -/
def renderStrSet (l : List String) : String :=
  "\x7b" ++ renderQuoted (pySetOf l) ++ "\x7d"

/-! ### Model of the `netaddr` library (external collaborator)

`attributes.py` delegates all address parsing to `netaddr`.  The library
is modelled here for the input shapes this repository feeds it: EUI-48
MAC strings, IPv4 dotted-quad strings (both the lenient `inet_aton` and
the strict `inet_pton` accepters) and RFC-4291 IPv6 literals without an
embedded IPv4 tail.  Exotic acceptances of the real library (hex/octal
IPv4 octets, Cisco triple-group MACs, dotted-netmask suffixes) are out of
the model's scope and noted where relevant. -/

/-- One MAC group of one or two hex digits, e.g. `5e` or `5`. -/
def macPartVal? (p : List Char) : Option Nat :=
  if 1 ≤ p.length && p.length ≤ 2 then hexToNat? p else Option.none

/-- Value of six separator-delimited MAC groups. -/
def macSixGroups? (parts : List (List Char)) : Option Nat :=
  if parts.length = 6 then
    parts.foldl
      (fun acc p => do
        let a ← acc
        let v ← macPartVal? p
        pure (a * 256 + v))
      (some 0)
  else Option.none

/-- Model of EUI-48 parsing (`netaddr.valid_mac` / `netaddr.EUI`): six
colon- or dash-separated groups of one or two hex digits, or a bare run
of twelve hex digits.  Parsing is purely syntactic: the unicast/multicast
bit of the first octet is *not* inspected by the library. -/
def macValue? (s : String) : Option Nat :=
  match macSixGroups? (splitSep ':' s.data) with
  | some v => some v
  | Option.none =>
    match macSixGroups? (splitSep '-' s.data) with
    | some v => some v
    | Option.none =>
      if s.data.length = 12 && s.data.all isHexDigit2 then hexToNat? s.data
      else Option.none

/-- `netaddr.valid_mac`. -/
def netaddrValidMac (s : String) : Bool := (macValue? s).isSome

/-- Modelled from the spec: the blacklist constant
`neutron_lib.common.constants.INVALID_MAC_ADDRESSES` is imported from a
module that is not among the sources; per the spec's validator table a
well-formed MAC must additionally not be in "a blacklist of invalid
MACs", which consists of the all-zero and broadcast addresses. -/
def INVALID_MAC_ADDRESSES : List String :=
  ["00:00:00:00:00:00", "ff:ff:ff:ff:ff:ff"]

/-- Modelled from the spec: the sentinel constant
`neutron_lib.common.constants.IPV6_PD_POOL_ID` ("a sentinel pool id
constant bypassing the UUID check" per the spec), from the same missing
module. -/
def IPV6_PD_POOL_ID : String := "prefix_delegation"

/-- Model of `inet_aton` as used by `netaddr.IPAddress` for IPv4: accepts
1 to 4 dot-separated decimal parts, the last part filling the remaining
bytes (`"10.1"` is `10.0.0.1`).  This leniency is exactly why
`_validate_ip_address` adds its own dot-count guard.  The hex/octal octet
forms some platforms accept are not modelled. -/
def atonParse? (l : List Char) : Option Nat :=
  match (splitSep '.' l).mapM decToNat? with
  | some [a] => if a < 2 ^ 32 then some a else Option.none
  | some [a, b] =>
    if a < 256 && b < 2 ^ 24 then some (a * 2 ^ 24 + b) else Option.none
  | some [a, b, c] =>
    if a < 256 && b < 256 && c < 2 ^ 16 then
      some (a * 2 ^ 24 + b * 2 ^ 16 + c)
    else Option.none
  | some [a, b, c, d] =>
    if a < 256 && b < 256 && c < 256 && d < 256 then
      some (a * 2 ^ 24 + b * 2 ^ 16 + c * 256 + d)
    else Option.none
  | _ => Option.none

/-- Model of `inet_pton` for IPv4: exactly four dot-separated parts of
one to three decimal digits, each below 256. -/
def pton4Parse? (l : List Char) : Option Nat :=
  let parts := splitSep '.' l
  if parts.length = 4 && parts.all (fun p => 1 ≤ p.length && p.length ≤ 3)
  then
    match parts.mapM decToNat? with
    | some [a, b, c, d] =>
      if a < 256 && b < 256 && c < 256 && d < 256 then
        some (a * 2 ^ 24 + b * 2 ^ 16 + c * 256 + d)
      else Option.none
    | _ => Option.none
  else Option.none

/-- An IPv6 group: one to four hex digits. -/
def ipv6GroupOk (p : List Char) : Bool :=
  1 ≤ p.length && p.length ≤ 4 && p.all isHexDigit2

/-- Parse a run of IPv6 groups, all of which must be well formed. -/
def ipv6Groups? (ps : List (List Char)) : Option (List Nat) :=
  ps.mapM (fun p => if ipv6GroupOk p then hexToNat? p else Option.none)

/-- Accumulate 16-bit groups into an address value. -/
def ipv6FromGroups (gs : List Nat) : Nat :=
  gs.foldl (fun a g => a * 2 ^ 16 + g) 0

/-- Locate the first empty part (produced by a double colon) of a split
IPv6 literal, returning the parts before and after it. -/
def ipv6SplitEmpty (acc : List (List Char)) :
    List (List Char) → Option (List (List Char) × List (List Char))
  | [] => Option.none
  | p :: ps =>
    if p.isEmpty then some (acc.reverse, ps)
    else ipv6SplitEmpty (p :: acc) ps

/-- Model of `inet_pton` for IPv6: colon-separated groups of one to four
hex digits with at most one `::` compression standing for one or more
zero groups.  The embedded-IPv4 tail form (`::ffff:10.0.0.1`) is not
modelled; no input under study uses it. -/
def ipv6Parse? (l : List Char) : Option Nat :=
  let parts := splitSep ':' l
  match ipv6SplitEmpty [] parts with
  | Option.none =>
    -- no compression: exactly eight groups
    match ipv6Groups? parts with
    | some gs => if gs.length = 8 then some (ipv6FromGroups gs) else Option.none
    | Option.none => Option.none
  | some (pre, post) =>
    -- `pre` is empty iff the literal starts with a colon, which is only
    -- legal as the start of a leading `::`
    let checked : Option (List (List Char) × List (List Char)) :=
      if pre.isEmpty then
        match post with
        | [] :: rest => some ([], rest)
        | _ => Option.none
      else some (pre, post)
    match checked with
    | Option.none => Option.none
    | some (pre₂, post₂) =>
      -- a trailing `::` leaves exactly one trailing empty part
      let post₃ := if post₂ = [[]] then [] else post₂
      match ipv6Groups? pre₂, ipv6Groups? post₃ with
      | some gs₁, some gs₂ =>
        if gs₁.length + gs₂.length ≤ 7 then
          some (ipv6FromGroups
            (gs₁ ++ List.replicate (8 - gs₁.length - gs₂.length) 0 ++ gs₂))
        else Option.none
      | _, _ => Option.none

/-- A parsed `netaddr.IPAddress`. -/
structure IPAddr where
  version : Nat
  value : Nat
deriving Repr, DecidableEq

/-- Model of `netaddr.IPAddress(data)` with default flags, as called by
`_validate_ip_address`: the lenient IPv4 form is tried first, then
IPv6.  A parse failure raises `AddrFormatError` (a subclass of
`Exception`), modelled as `Option.none`. -/
def ipAddressParse? (s : String) : Option IPAddr :=
  match atonParse? s.data with
  | some v => some ⟨4, v⟩
  | Option.none =>
    match ipv6Parse? s.data with
    | some v => some ⟨6, v⟩
    | Option.none => Option.none

/-- A parsed `netaddr.IPNetwork`: version, address value as given (host
bits retained) and prefix length. -/
structure IPNet where
  version : Nat
  value : Nat
  prefixlen : Nat
deriving Repr, DecidableEq

/-- Address width in bits. -/
def ipWidth (version : Nat) : Nat := if version = 4 then 32 else 128

/-- Model of `netaddr.IPNetwork(data)`: an address part (strict
`inet_pton` acceptance, IPv4 then IPv6), optionally followed by `/` and a
decimal prefix length within the address width; an absent prefix means
the full width (`10.0.0.0` is `10.0.0.0/32`).  Dotted-netmask and
hostmask suffixes accepted by the real library are not modelled. -/
def ipnetParse? (s : String) : Option IPNet :=
  let addrParse (l : List Char) : Option (Nat × Nat) :=
    match pton4Parse? l with
    | some v => some (4, v)
    | Option.none =>
      match ipv6Parse? l with
      | some v => some (6, v)
      | Option.none => Option.none
  match splitSepOnce '/' s.data with
  | [addr] =>
    match addrParse addr with
    | some (ver, v) => some ⟨ver, v, ipWidth ver⟩
    | Option.none => Option.none
  | [addr, pfx] =>
    match addrParse addr, decToNat? pfx with
    | some (ver, v), some p =>
      if p ≤ ipWidth ver then some ⟨ver, v, p⟩ else Option.none
    | _, _ => Option.none
  | _ => Option.none

/-- The address value with the host bits cleared. -/
def ipnetMasked (n : IPNet) : Nat :=
  n.value - n.value % 2 ^ (ipWidth n.version - n.prefixlen)

/-- Canonical dotted-quad rendering of an IPv4 value. -/
def v4Render (v : Nat) : String :=
  toString (v / 2 ^ 24 % 256) ++ "." ++ toString (v / 2 ^ 16 % 256) ++ "." ++
    toString (v / 256 % 256) ++ "." ++ toString (v % 256)

/-- Lowercase hexadecimal rendering of one IPv6 group. -/
def hexRender (n : Nat) : String := ⟨Nat.toDigits 16 n⟩

/-- Uncompressed group rendering of an IPv6 value (the model does not
reproduce RFC 5952 `::` compression; no property under study inspects a
rendered IPv6 network). -/
def v6Render (v : Nat) : String :=
  hexRender (v / 2 ^ 112 % 2 ^ 16) ++ ":" ++ hexRender (v / 2 ^ 96 % 2 ^ 16) ++
    ":" ++ hexRender (v / 2 ^ 80 % 2 ^ 16) ++ ":" ++
    hexRender (v / 2 ^ 64 % 2 ^ 16) ++ ":" ++
    hexRender (v / 2 ^ 48 % 2 ^ 16) ++ ":" ++
    hexRender (v / 2 ^ 32 % 2 ^ 16) ++ ":" ++
    hexRender (v / 2 ^ 16 % 2 ^ 16) ++ ":" ++ hexRender (v % 2 ^ 16)

/-- Model of `str()` on a `netaddr.IPNetwork`, which renders the network
in CIDR form with the host bits cleared, in the library version this code
targets.  This is precisely what lets `_validate_subnet`'s comparison
`str(net) != data` reject IPv4 strings whose host bits are set: the
repository's companion tests pin that `10.0.2.10/24` must draw the
"'10.0.2.0/24' is recommended" diagnostic. -/
def ipnetStr (n : IPNet) : String :=
  (if n.version = 4 then v4Render (ipnetMasked n)
   else v6Render (ipnetMasked n)) ++ "/" ++ toString n.prefixlen

/-- `net.cidr` rendered by `%s`: the masked network in CIDR form, which
coincides with `ipnetStr` in this model. -/
def ipnetCidrStr (n : IPNet) : String := ipnetStr n

/-! ### Models of `uuidutils` and `re` (external collaborators) -/

/-- Lowercase hex digit. -/
def isLowerHex (c : Char) : Bool :=
  isDecDigit c || ('a' ≤ c && c ≤ 'f')

/-- Model of `oslo_utils.uuidutils.is_uuid_like`, which tests
`str(uuid.UUID(val)) == val`.  Since `str` of a `UUID` is the canonical
lowercase hyphenated form, the test holds exactly for strings shaped
`8-4-4-4-12` over lowercase hex digits; any other accepted spelling
(uppercase, braces, missing hyphens, `urn:` forms) differs from its
canonicalization and yields `False`, as does a non-string (the raised
`TypeError` is caught inside `is_uuid_like`). -/
def isUuidLike (v : PyVal) : Bool :=
  match v with
  | .str s =>
    match splitSep '-' s.data with
    | [a, b, c, d, e] =>
      a.length = 8 && b.length = 4 && c.length = 4 && d.length = 4 &&
        e.length = 12 && (a ++ b ++ c ++ d ++ e).all isLowerHex
    | _ => false
  | _ => false

/-- Model of `re.match(pattern, data)` for literal (metacharacter-free)
patterns: a partial match anchored at the start of `data`.  No property
under study exercises `_validate_regex`; the model keeps the registry
total. -/
def reMatchLiteral (pattern data : String) : Bool :=
  List.isPrefixOf pattern.data data.data

/-- Substring test (Python `sub in s` for strings). -/
def listHasSub (sub : List Char) : List Char → Bool
  | [] => sub.isEmpty
  | c :: rest => List.isPrefixOf sub (c :: rest) || listHasSub sub rest

/-- Python `int(data)`: identity on integers, `0`/`1` on booleans, parse
of an optionally signed decimal string after stripping whitespace; every
other case is a `ValueError`/`TypeError`, and every caller of `int()` in
`attributes.py` treats those two alike, so the model does not distinguish
them and returns `Option.none`. -/
def pyInt? : PyVal → Option Int
  | .int n => some n
  | .bool b => some (if b then 1 else 0)
  | .str s =>
    match stripChars s.data with
    | '-' :: rest => (decToNat? rest).map (fun n => -(n : Int))
    | '+' :: rest => (decToNat? rest).map (fun n => (n : Int))
    | t => (decToNat? t).map (fun n => (n : Int))
  | _ => Option.none

/-- Python `item in container` (`in` raises `TypeError` on a
non-container right operand, which `_validate_values` does not catch). -/
def pyContains (container item : PyVal) : Except PyExc Bool :=
  match container with
  | .list xs => .ok (xs.any (pyEq item))
  | .dict xs =>
    match item with
    | .str k => .ok (dictHasKey xs k)
    | _ => .ok false
  | .str s =>
    match item with
    | .str sub => .ok (listHasSub sub.data s.data)
    | _ => .error .typeError
  | _ => .error .typeError

/-! ### The primitive validators of `attributes.py`

Every validator keeps its source name and its source signature
`(data, valid_values)`; the `LOG.debug` emission accompanying each
message is a side effect outside the return contract and is not
modelled.  The uniform return type `Except PyExc (Option String)` makes
the two failure channels of the design explicit: `.ok none` is success,
`.ok (some msg)` is a returned validation-failure message, and `.error e`
is a raised exception escaping the validator. -/

/-- `_verify_dict_keys(expected_keys, target_dict, strict=True)`.  The
model renders the expected-keys list and the two key sets in the
diagnostics with the canonical (sorted) set order. -/
def _verify_dict_keys (expected_keys : List String) (target_dict : PyVal)
    (strict : Bool) : Option String :=
  match target_dict with
  | .dict entries =>
    let provided_keys := dictKeys entries
    let pass :=
      if strict then strSetEq expected_keys provided_keys
      else strSubset expected_keys provided_keys
    if pass then Option.none
    else
      some ("Validation of dictionary's keys failed. Expected keys: " ++
        renderStrSet expected_keys ++ " Provided keys: " ++
        renderStrSet provided_keys)
  | _ =>
    some ("Invalid input. '" ++ pyStr target_dict ++
      "' must be a dictionary with keys: " ++ renderStrList expected_keys)

/-- `_validate_values(data, valid_values=None)`. -/
def _validate_values (data valid_values : PyVal) :
    Except PyExc (Option String) := do
  let mem ← pyContains valid_values data
  if mem then pure Option.none
  else
    pure (some ("'" ++ pyStr data ++ "' is not in " ++ pyStr valid_values))

/-- `_validate_string(data, max_len=None)`.  The length bound is applied
when the supplied parameter is an integer; comparing `len(data)` against
a parameter of any other non-`None` type does not arise in the schemas
under study and is modelled as no bound. -/
def _validate_string (data max_len : PyVal) : Except PyExc (Option String) :=
  match data with
  | .str s =>
    match max_len with
    | .int m =>
      if (s.length : Int) > m then
        .ok (some ("'" ++ s ++ "' exceeds maximum length of " ++ intToDec m))
      else .ok Option.none
    | _ => .ok Option.none
  | _ => .ok (some ("'" ++ pyStr data ++ "' is not a valid string"))

/-- `_validate_not_empty_string(data, max_len=None)`. -/
def _validate_not_empty_string (data max_len : PyVal) :
    Except PyExc (Option String) := do
  let msg ← _validate_string data max_len
  match msg with
  | some m => pure (some m)
  | Option.none =>
    match data with
    | .str s =>
      if pyStrip s = "" then
        pure (some ("'" ++ s ++ "' Blank strings are not permitted"))
      else pure Option.none
    | _ => pure Option.none

/-- `_validate_not_empty_string_or_none(data, max_len=None)`. -/
def _validate_not_empty_string_or_none (data max_len : PyVal) :
    Except PyExc (Option String) :=
  match data with
  | .none => .ok Option.none
  | _ => _validate_not_empty_string data max_len

/-- `_validate_string_or_none(data, max_len=None)`. -/
def _validate_string_or_none (data max_len : PyVal) :
    Except PyExc (Option String) :=
  match data with
  | .none => .ok Option.none
  | _ => _validate_string data max_len

/-- `convert_to_boolean(data)`: the strict boolean coercion, raising the
typed `InvalidInput` error on anything but case-insensitive
`"true"/"1"/"false"/"0"`, native booleans, and integers 0/1. -/
def convert_to_boolean (data : PyVal) : Except PyExc PyVal :=
  match data with
  | .str s =>
    let val : String := ⟨s.data.map Char.toLower⟩
    if val = "true" || val = "1" then .ok (.bool true)
    else if val = "false" || val = "0" then .ok (.bool false)
    else
      .error (.invalidInput ("'" ++ s ++ "' cannot be converted to boolean"))
  | .bool b => .ok (.bool b)
  | .int n =>
    if n = 0 then .ok (.bool false)
    else if n = 1 then .ok (.bool true)
    else
      .error
        (.invalidInput ("'" ++ pyStr data ++ "' cannot be converted to boolean"))
  | _ =>
    .error
      (.invalidInput ("'" ++ pyStr data ++ "' cannot be converted to boolean"))

/-- `_validate_boolean(data, valid_values=None)`: the returned-message
face of `convert_to_boolean`. -/
def _validate_boolean (data _valid_values : PyVal) :
    Except PyExc (Option String) :=
  match convert_to_boolean data with
  | .ok _ => .ok Option.none
  | .error _ =>
    .ok (some ("'" ++ pyStr data ++ "' is not a valid boolean value"))

/-- `_validate_range(data, valid_values=None)` with `valid_values` a pair
`[min, max]`, either bound possibly `UNLIMITED` (`None`).  Indexing into
a parameter that is not a two-element sequence raises (uncaught). -/
def _validate_range (data valid_values : PyVal) :
    Except PyExc (Option String) :=
  match valid_values with
  | .list [min_value, max_value] =>
    match pyInt? data with
    | Option.none =>
      .ok (some ("'" ++ pyStr data ++ "' is not an integer"))
    | some d =>
      match min_value with
      | .int mn =>
        if d < mn then
          .ok (some ("'" ++ intToDec d ++ "' is too small - must be at least '"
            ++ intToDec mn ++ "'"))
        else
          match max_value with
          | .int mx =>
            if d > mx then
              .ok (some ("'" ++ intToDec d ++
                "' is too large - must be no larger than '" ++ intToDec mx ++
                "'"))
            else .ok Option.none
          | _ => .ok Option.none
      | _ =>
        match max_value with
        | .int mx =>
          if d > mx then
            .ok (some ("'" ++ intToDec d ++
              "' is too large - must be no larger than '" ++ intToDec mx ++ "'"))
          else .ok Option.none
        | _ => .ok Option.none
  | _ => .error .typeError

/-- `_validate_no_whitespace(data)`: returns `data`, raising the typed
`InvalidInput` error when it contains `\s` whitespace; on a non-string,
`re.search` raises a builtin exception instead (the source's own TODO
notes the `AttributeError` raised for `None`). -/
def _validate_no_whitespace (data : PyVal) : Except PyExc PyVal :=
  match data with
  | .str s =>
    if hasPyWs s then
      .error (.invalidInput ("'" ++ s ++ "' contains whitespace"))
    else .ok data
  | _ => .error .typeError

/-- `_validate_mac_address(data, valid_values=None)`.  The whole
`valid_mac` computation, including `_validate_no_whitespace`, sits under
`try: ... except Exception:`, so a whitespace-bearing or non-string input
falls through to the returned message rather than raising; a well-formed
MAC is then rejected only if it is in the blacklist (EUI comparison is
numeric). -/
def _validate_mac_address (data _valid_values : PyVal) :
    Except PyExc (Option String) :=
  let valid_mac :=
    match data with
    | .str s => if hasPyWs s then false else netaddrValidMac s
    | _ => false
  let valid_mac :=
    if valid_mac then
      match data with
      | .str s =>
        !(INVALID_MAC_ADDRESSES.any (fun m => macValue? m = macValue? s))
      | _ => false
    else false
  if valid_mac then .ok Option.none
  else .ok (some ("'" ++ pyStr data ++ "' is not a valid MAC address"))

/-- `_validate_mac_address_or_none(data, valid_values=None)`. -/
def _validate_mac_address_or_none (data valid_values : PyVal) :
    Except PyExc (Option String) :=
  match data with
  | .none => .ok Option.none
  | _ => _validate_mac_address data valid_values

/-- `_validate_ip_address(data, valid_values=None)`: `netaddr` parse plus
the dot-count/colon guard against over-lenient platform `inet_aton`
forms; every raised exception (including the whitespace one) is caught
and turned into the message. -/
def _validate_ip_address (data _valid_values : PyVal) :
    Except PyExc (Option String) :=
  let ok :=
    match data with
    | .str s =>
      !hasPyWs s && (ipAddressParse? s).isSome &&
        (s.data.contains ':' || s.data.count '.' = 3)
    | _ => false
  if ok then .ok Option.none
  else .ok (some ("'" ++ pyStr data ++ "' is not a valid IP address"))

/-- `_validate_ip_address_or_none(data, valid_values=None)`. -/
def _validate_ip_address_or_none (data valid_values : PyVal) :
    Except PyExc (Option String) :=
  match data with
  | .none => .ok Option.none
  | _ => _validate_ip_address data valid_values

/-- `_validate_ip_pools(data, valid_values=None)`: a list of
`{start, end}` dictionaries (strict key check) of valid IP addresses. -/
def _validate_ip_pools (data _valid_values : PyVal) :
    Except PyExc (Option String) :=
  match data with
  | .list pools => do
    let expected_keys := ["start", "end"]
    let rec go : List PyVal → Except PyExc (Option String)
      | [] => .ok Option.none
      | ip_pool :: rest => do
        match _verify_dict_keys expected_keys ip_pool true with
        | some m => pure (some m)
        | Option.none =>
          let inner :=
            match ip_pool with
            | .dict entries => entries
            | _ => []
          let msg₁ ← _validate_ip_address (dictGet inner "start") PyVal.none
          match msg₁ with
          | some m => pure (some m)
          | Option.none =>
            let msg₂ ← _validate_ip_address (dictGet inner "end") PyVal.none
            match msg₂ with
            | some m => pure (some m)
            | Option.none => go rest
    go pools
  | _ => .ok (some ("Invalid data format for IP pool: '" ++ pyStr data ++ "'"))

/-- `_validate_uuid(data, valid_values=None)`. -/
def _validate_uuid (data _valid_values : PyVal) :
    Except PyExc (Option String) :=
  if isUuidLike data then .ok Option.none
  else .ok (some ("'" ++ pyStr data ++ "' is not a valid UUID"))

/-- `_validate_uuid_or_none(data, valid_values=None)`. -/
def _validate_uuid_or_none (data _valid_values : PyVal) :
    Except PyExc (Option String) :=
  match data with
  | .none => .ok Option.none
  | _ => _validate_uuid data PyVal.none

/-- `_validate_fixed_ips(data, valid_values=None)`: a list of
dictionaries carrying an optional `ip_address` (valid and not previously
seen) and an optional `subnet_id` (valid UUID); the seen-IPs accumulator
grows even past a duplicate report. -/
def _validate_fixed_ips (data _valid_values : PyVal) :
    Except PyExc (Option String) :=
  match data with
  | .list fixed_ips =>
    let rec go : List PyVal → List PyVal → Except PyExc (Option String)
      | [], _ => .ok Option.none
      | fixed_ip :: rest, ips => do
        match fixed_ip with
        | .dict entries => do
          let step : Except PyExc (Option String × List PyVal) :=
            if dictHasKey entries "ip_address" then do
              let fixed_ip_address := dictGet entries "ip_address"
              let msg ←
                if ips.any (pyEq fixed_ip_address) then
                  pure (some ("Duplicate IP address '" ++
                    pyStr fixed_ip_address ++ "'"))
                else _validate_ip_address fixed_ip_address PyVal.none
              match msg with
              | some m => pure (some m, ips)
              | Option.none => pure (Option.none, ips ++ [fixed_ip_address])
            else pure (Option.none, ips)
          let (msg, ips₂) ← step
          match msg with
          | some m => pure (some m)
          | Option.none =>
            if dictHasKey entries "subnet_id" then do
              let msg₂ ← _validate_uuid (dictGet entries "subnet_id") PyVal.none
              match msg₂ with
              | some m => pure (some m)
              | Option.none => go rest ips₂
            else go rest ips₂
        | _ =>
          pure (some ("Invalid data format for fixed IP: '" ++
            pyStr fixed_ip ++ "'"))
    go fixed_ips []
  | _ => .ok (some ("Invalid data format for fixed IP: '" ++ pyStr data ++ "'"))

/-- `_validate_nameservers(data, valid_values=None)`: any iterable of
distinct valid IP strings.  Of the embedded values, lists are iterable
and dictionaries iterate over their keys; everything else fails the
`hasattr(data, '__iter__')` test (strings do not carry `__iter__` on the
Python 2 line this code supports). -/
def _validate_nameservers (data _valid_values : PyVal) :
    Except PyExc (Option String) :=
  let hosts? : Option (List PyVal) :=
    match data with
    | .list xs => some xs
    | .dict xs => some (xs.map (fun kv => .str kv.1))
    | _ => Option.none
  match hosts? with
  | Option.none =>
    .ok (some ("Invalid data format for nameserver: '" ++ pyStr data ++ "'"))
  | some hosts =>
    let rec go : List PyVal → List PyVal → Except PyExc (Option String)
      | [], _ => .ok Option.none
      | host :: rest, seen => do
        let msg ← _validate_ip_address host PyVal.none
        match msg with
        | some m =>
          pure (some ("'" ++ pyStr host ++ "' is not a valid nameserver. " ++ m))
        | Option.none =>
          if seen.any (pyEq host) then
            pure (some ("Duplicate nameserver '" ++ pyStr host ++ "'"))
          else go rest (seen ++ [host])
    go hosts []

/-- `_validate_subnet(data, valid_values=None)`: a CIDR that must carry a
`/` and, for IPv4, must already be in canonical network form (`str(net)`
comparison); everything raised inside, including the whitespace
exception, is caught and becomes the invalid-subnet message. -/
def _validate_subnet (data _valid_values : PyVal) :
    Except PyExc (Option String) :=
  match data with
  | .str s =>
    if hasPyWs s then
      .ok (some ("'" ++ s ++ "' is not a valid IP subnet"))
    else
      match ipnetParse? s with
      | some net =>
        if ¬s.data.contains '/' ∨ (net.version = 4 ∧ ipnetStr net ≠ s) then
          .ok (some ("'" ++ s ++ "' isn't a recognized IP subnet cidr, '" ++
            ipnetCidrStr net ++ "' is recommended"))
        else .ok Option.none
      | Option.none => .ok (some ("'" ++ s ++ "' is not a valid IP subnet"))
  | _ => .ok (some ("'" ++ pyStr data ++ "' is not a valid IP subnet"))

/-- `_validate_subnet_or_none(data, valid_values=None)`. -/
def _validate_subnet_or_none (data valid_values : PyVal) :
    Except PyExc (Option String) :=
  match data with
  | .none => .ok Option.none
  | _ => _validate_subnet data valid_values

/-- `_validate_subnet_list(data, valid_values=None)`: a duplicate-free
list of valid subnets.  `set(data)`/`', '.join(data)` require string
elements; a non-string element raises (uncaught) before any subnet is
examined. -/
def _validate_subnet_list (data valid_values : PyVal) :
    Except PyExc (Option String) :=
  match data with
  | .list items => do
    let strs? : Option (List String) :=
      items.mapM (fun v =>
        match v with
        | .str s => some s
        | _ => Option.none)
    match strs? with
    | Option.none => .error .typeError
    | some strs =>
      if (pySetOf strs).length ≠ strs.length then
        .ok (some ("Duplicate items in the list: '" ++
          String.intercalate ", " strs ++ "'"))
      else
        let rec go : List String → Except PyExc (Option String)
          | [] => .ok Option.none
          | item :: rest => do
            let msg ← _validate_subnet (.str item) valid_values
            match msg with
            | some m => pure (some m)
            | Option.none => go rest
        go strs
  | _ => .ok (some ("'" ++ pyStr data ++ "' is not a list"))

/-- `_validate_regex(data, valid_values=None)`: `re.match` anchored at
the start; a `TypeError` from a non-string pattern or subject is
swallowed and yields the message. -/
def _validate_regex (data valid_values : PyVal) :
    Except PyExc (Option String) :=
  match valid_values, data with
  | .str pattern, .str s =>
    if reMatchLiteral pattern s then .ok Option.none
    else .ok (some ("'" ++ s ++ "' is not a valid input"))
  | _, _ => .ok (some ("'" ++ pyStr data ++ "' is not a valid input"))

/-- `_validate_regex_or_none(data, valid_values=None)`. -/
def _validate_regex_or_none (data valid_values : PyVal) :
    Except PyExc (Option String) :=
  match data with
  | .none => .ok Option.none
  | _ => _validate_regex data valid_values

/-- `_validate_subnetpool_id(data, valid_values=None)`: the prefix
delegation sentinel bypasses the UUID check. -/
def _validate_subnetpool_id (data valid_values : PyVal) :
    Except PyExc (Option String) :=
  if pyEq data (.str IPV6_PD_POOL_ID) then .ok Option.none
  else _validate_uuid_or_none data valid_values

/-- `_validate_subnetpool_id_or_none(data, valid_values=None)`. -/
def _validate_subnetpool_id_or_none (data valid_values : PyVal) :
    Except PyExc (Option String) :=
  match data with
  | .none => .ok Option.none
  | _ => _validate_subnetpool_id data valid_values

/-- `_validate_uuid_list(data, valid_values=None)`: every element a valid
UUID, then a duplicate check through `set(data)` (string elements,
as with `_validate_subnet_list`). -/
def _validate_uuid_list (data _valid_values : PyVal) :
    Except PyExc (Option String) :=
  match data with
  | .list items => do
    let rec go : List PyVal → Except PyExc (Option String)
      | [] => .ok Option.none
      | item :: rest => do
        let msg ← _validate_uuid item PyVal.none
        match msg with
        | some m => pure (some m)
        | Option.none => go rest
    let msg ← go items
    match msg with
    | some m => pure (some m)
    | Option.none =>
      let strs? : Option (List String) :=
        items.mapM (fun v =>
          match v with
          | .str s => some s
          | _ => Option.none)
      match strs? with
      | Option.none => .error .typeError
      | some strs =>
        if (pySetOf strs).length ≠ strs.length then
          pure (some ("Duplicate items in the list: '" ++
            String.intercalate ", " strs ++ "'"))
        else pure Option.none
  | _ => .ok (some ("'" ++ pyStr data ++ "' is not a list"))

/-- `_validate_hostroutes(data, valid_values=None)`: a list of
`{destination, nexthop}` dictionaries (strict key check), destination a
valid subnet, nexthop a valid IP, without a duplicate route entry. -/
def _validate_hostroutes (data _valid_values : PyVal) :
    Except PyExc (Option String) :=
  match data with
  | .list routes =>
    let expected_keys := ["destination", "nexthop"]
    let rec go : List PyVal → List PyVal → Except PyExc (Option String)
      | [], _ => .ok Option.none
      | hostroute :: rest, seen => do
        match _verify_dict_keys expected_keys hostroute true with
        | some m => pure (some m)
        | Option.none =>
          let inner :=
            match hostroute with
            | .dict entries => entries
            | _ => []
          let msg₁ ← _validate_subnet (dictGet inner "destination") PyVal.none
          match msg₁ with
          | some m => pure (some m)
          | Option.none =>
            let msg₂ ← _validate_ip_address (dictGet inner "nexthop") PyVal.none
            match msg₂ with
            | some m => pure (some m)
            | Option.none =>
              if seen.any (pyEq hostroute) then
                pure (some ("Duplicate hostroute '" ++ pyStr hostroute ++ "'"))
              else go rest (seen ++ [hostroute])
    go routes []
  | _ =>
    .ok (some ("Invalid data format for hostroute: '" ++ pyStr data ++ "'"))

/-- `_validate_non_negative(data, valid_values=None)`. -/
def _validate_non_negative (data _valid_values : PyVal) :
    Except PyExc (Option String) :=
  match pyInt? data with
  | Option.none => .ok (some ("'" ++ pyStr data ++ "' is not an integer"))
  | some d =>
    if d < 0 then .ok (some ("'" ++ intToDec d ++ "' should be non-negative"))
    else .ok Option.none

/-! ### The converters -/

/-- `convert_to_boolean_if_not_none(data)`. -/
def convert_to_boolean_if_not_none (data : PyVal) : Except PyExc PyVal :=
  match data with
  | .none => .ok .none
  | _ => convert_to_boolean data

/-- `convert_to_int(data)`. -/
def convert_to_int (data : PyVal) : Except PyExc PyVal :=
  match pyInt? data with
  | some n => .ok (.int n)
  | Option.none =>
    .error (.invalidInput ("'" ++ pyStr data ++ "' is not a integer"))

/-- `convert_to_int_if_not_none(data)`. -/
def convert_to_int_if_not_none (data : PyVal) : Except PyExc PyVal :=
  match data with
  | .none => .ok .none
  | _ => convert_to_int data

/-- `convert_none_to_empty_list(value)`. -/
def convert_none_to_empty_list (value : PyVal) : Except PyExc PyVal :=
  match value with
  | .none => .ok (.list [])
  | v => .ok v

/-- `convert_none_to_empty_dict(value)`. -/
def convert_none_to_empty_dict (value : PyVal) : Except PyExc PyVal :=
  match value with
  | .none => .ok (.dict [])
  | v => .ok v

/-- `convert_to_list(data)`: `None` becomes `[]`, non-string iterables
pass through as lists (a dictionary lists its keys), scalars and strings
are wrapped into a singleton. -/
def convert_to_list (data : PyVal) : Except PyExc PyVal :=
  match data with
  | .none => .ok (.list [])
  | .list xs => .ok (.list xs)
  | .dict xs => .ok (.list (xs.map (fun kv => .str kv.1)))
  | v => .ok (.list [v])

/-- `convert_kvp_str_to_list(data)`: split at the *first* `=` only
(`data.split('=', 1)`), strip both halves, and require a present `=`
with a non-empty stripped key; otherwise raise the typed `InvalidInput`
error.  A non-string input has no `.split` and raises a builtin
exception (uncaught). -/
def convert_kvp_str_to_list (data : PyVal) :
    Except PyExc (String × String) :=
  match data with
  | .str s =>
    match (splitSepOnce '=' s.data).map (fun l => pyStrip ⟨l⟩) with
    | [k, v] =>
      if k ≠ "" then .ok (k, v)
      else
        .error (.invalidInput ("'" ++ s ++ "' is not of the form <key>=[value]"))
    | _ =>
      .error (.invalidInput ("'" ++ s ++ "' is not of the form <key>=[value]"))
  | _ => .error .attributeError

/-- `kvp_map.setdefault(key, set()); kvp_map[key].add(value)`: the keys
keep dictionary insertion order, each key's value set is kept in the
canonical (sorted) order of the set model. -/
def kvpAdd (acc : List (String × List String)) (k v : String) :
    List (String × List String) :=
  match acc with
  | [] => [(k, [v])]
  | (k₂, vs) :: rest =>
    if k₂ = k then (k₂, strInsert v vs) :: rest
    else (k₂, vs) :: kvpAdd rest k v

/-- The accumulation loop of `convert_kvp_list_to_dict`. -/
def kvpFold (kvps : List PyVal) (acc : List (String × List String)) :
    Except PyExc (List (String × List String)) :=
  match kvps with
  | [] => .ok acc
  | kvp_str :: rest => do
    let (key, value) ← convert_kvp_str_to_list kvp_str
    kvpFold rest (kvpAdd acc key value)

/-- `convert_kvp_list_to_dict(kvp_list)`: the `['True']` sentinel (a flag
given without values) yields the empty mapping; otherwise each entry is
split by `convert_kvp_str_to_list` and duplicate keys accumulate into a
value *set*, returned as `list(...)` per key — in the canonical (sorted)
order standing in for the unspecified iteration order of a Python set. -/
def convert_kvp_list_to_dict (kvp_list : List PyVal) :
    Except PyExc (List (String × List String)) :=
  if pyEqList kvp_list [.str "True"] then .ok []
  else kvpFold kvp_list []

/-! ### The dict-schema validator and the registry

A key spec is a Python dictionary; `_validate_dict_item` consults its
`convert_to` entry (a function), iterates over its items scanning for
the first key starting with `type:`, and dispatches through the
`validators` registry.  The model separates the `required` flag (the
truthiness of `spec.get('required')`) and the optional converter from the
remaining items, whose keys never collide with those two names in the
schemas this layer receives; the `type:*` scan only ever inspects the
remaining items.  A parameter value can itself be a nested key-spec
mapping (for the dict-family validators), which makes the two types
mutually inductive. -/

mutual

/-- The value attached to a `type:*` entry of a key spec: either a plain
embedded value or a nested key-spec mapping. -/
inductive SpecParam where
  | py (v : PyVal)
  | specs (ks : List (String × KeySpec))

/-- A key spec: the `required` flag, the optional `convert_to` function,
and the remaining items in dictionary iteration order. -/
inductive KeySpec where
  | mk (required : Bool) (convert : Option (PyVal → Except PyExc PyVal))
      (entries : List (String × SpecParam))

end

/-- The `required` flag of a key spec. -/
def KeySpec.required : KeySpec → Bool
  | .mk r _ _ => r

/-- The optional `convert_to` function of a key spec. -/
def KeySpec.convert : KeySpec → Option (PyVal → Except PyExc PyVal)
  | .mk _ c _ => c

/-- The remaining items of a key spec. -/
def KeySpec.entries : KeySpec → List (String × SpecParam)
  | .mk _ _ e => e

/-- The first item whose key starts with `type:`, in iteration order —
any further `type:*` entries are silently ignored (the single-winner
behaviour the spec flags as an ambiguity). -/
def findTypeEntry : List (String × SpecParam) → Option (String × SpecParam)
  | [] => Option.none
  | (k, v) :: rest =>
    if List.isPrefixOf "type:".data k.data then some (k, v)
    else findTypeEntry rest

/-- A parameter consumed by a scalar validator.  A nested key-spec
mapping handed to a scalar validator does not occur in any schema this
layer receives (key specs contain converter functions and are consumed
only by the dict family); it is rendered as an opaque dictionary. -/
def SpecParam.toPy : SpecParam → PyVal
  | .py v => v
  | .specs _ => .dict []

/-- The `key_specs` argument consumed by the dict family: a nested
key-spec mapping is passed through, the falsy `None` default means "no
constraints".  (A truthy non-mapping parameter would crash the real
`six.iteritems` iteration and occurs in no schema.) -/
def SpecParam.toSpecs : SpecParam → List (String × KeySpec)
  | .specs ks => ks
  | .py _ => []

/-- Python truthiness of an embedded value (`if data:`). -/
def pyTruthy : PyVal → Bool
  | .none => false
  | .bool b => b
  | .int n => n ≠ 0
  | .str s => s ≠ ""
  | .list xs => !xs.isEmpty
  | .dict xs => !xs.isEmpty

mutual

/-- Computable size of a spec parameter (the auto-generated `sizeOf` is
noncomputable because key specs carry converter functions). -/
def SpecParam.size : SpecParam → Nat
  | .py _ => 1
  | .specs ks => 1 + keySpecsSize ks

/-- Computable size of a key spec. -/
def KeySpec.size : KeySpec → Nat
  | .mk _ _ entries => 1 + specEntriesSize entries

/-- Computable size of a key spec's item list. -/
def specEntriesSize : List (String × SpecParam) → Nat
  | [] => 0
  | (_, v) :: rest => 1 + SpecParam.size v + specEntriesSize rest

/-- Computable size of a schema. -/
def keySpecsSize : List (String × KeySpec) → Nat
  | [] => 0
  | (_, ks) :: rest => 1 + KeySpec.size ks + keySpecsSize rest

end

/-- The required-keys comprehension of `_validate_dict`:
`[key for key, spec in six.iteritems(key_specs) if spec.get('required')]`. -/
def requiredKeysOf (key_specs : List (String × KeySpec)) : List String :=
  key_specs.filterMap
    (fun ks => if ks.2.required then some ks.1 else Option.none)

/-- The key set of the `validators` registry dictionary, in source
order.  `_validate_dict_item` looks its `type:*` tag up here;
a missing tag is the `KeyError` turned into the
"Validator ... does not exist." message. -/
def registryTags : List String :=
  ["type:dict", "type:dict_or_none", "type:dict_or_empty",
   "type:dict_or_nodata", "type:fixed_ips", "type:hostroutes",
   "type:ip_address", "type:ip_address_or_none", "type:ip_pools",
   "type:mac_address", "type:mac_address_or_none", "type:nameservers",
   "type:non_negative", "type:range", "type:regex", "type:regex_or_none",
   "type:string", "type:string_or_none", "type:not_empty_string",
   "type:not_empty_string_or_none", "type:subnet", "type:subnet_list",
   "type:subnet_or_none", "type:subnetpool_id",
   "type:subnetpool_id_or_none", "type:uuid", "type:uuid_or_none",
   "type:uuid_list", "type:values", "type:boolean"]

/-- `validators[tag](data, val_params)`: the registry dispatch,
parameterized by the dict-schema validator the dict family closes over
(Python resolves the module-level `_validate_dict` late; the model passes
it explicitly so that the recursion is carried by the fuel of
`_validate_dict_fuel` alone).  A nested dict validator returns only its
message: the in-place mutations it applies inside the nested value
through Python aliasing are not propagated upward by the model (no
property under study observes them). -/
def dispatchWith
    (validate_dict_cb :
      PyVal → List (String × KeySpec) → Except PyExc (Option String × PyVal))
    (tag : String) (data : PyVal) (params : SpecParam) :
    Except PyExc (Option String) :=
  match tag with
  | "type:dict" => do
    let (msg, _) ← validate_dict_cb data params.toSpecs
    pure msg
  | "type:dict_or_none" =>
    match data with
    | .none => .ok Option.none
    | _ => do
      let (msg, _) ← validate_dict_cb data params.toSpecs
      pure msg
  | "type:dict_or_empty" =>
    if pyEq data (.dict []) then .ok Option.none
    else do
      let (msg, _) ← validate_dict_cb data params.toSpecs
      pure msg
  | "type:dict_or_nodata" =>
    if pyTruthy data then do
      let (msg, _) ← validate_dict_cb data params.toSpecs
      pure msg
    else .ok Option.none
  | "type:fixed_ips" => _validate_fixed_ips data params.toPy
    | "type:hostroutes" => _validate_hostroutes data params.toPy
    | "type:ip_address" => _validate_ip_address data params.toPy
    | "type:ip_address_or_none" => _validate_ip_address_or_none data params.toPy
    | "type:ip_pools" => _validate_ip_pools data params.toPy
    | "type:mac_address" => _validate_mac_address data params.toPy
    | "type:mac_address_or_none" =>
      _validate_mac_address_or_none data params.toPy
    | "type:nameservers" => _validate_nameservers data params.toPy
    | "type:non_negative" => _validate_non_negative data params.toPy
    | "type:range" => _validate_range data params.toPy
    | "type:regex" => _validate_regex data params.toPy
    | "type:regex_or_none" => _validate_regex_or_none data params.toPy
    | "type:string" => _validate_string data params.toPy
    | "type:string_or_none" => _validate_string_or_none data params.toPy
    | "type:not_empty_string" => _validate_not_empty_string data params.toPy
    | "type:not_empty_string_or_none" =>
      _validate_not_empty_string_or_none data params.toPy
    | "type:subnet" => _validate_subnet data params.toPy
    | "type:subnet_list" => _validate_subnet_list data params.toPy
    | "type:subnet_or_none" => _validate_subnet_or_none data params.toPy
    | "type:subnetpool_id" => _validate_subnetpool_id data params.toPy
    | "type:subnetpool_id_or_none" =>
      _validate_subnetpool_id_or_none data params.toPy
    | "type:uuid" => _validate_uuid data params.toPy
    | "type:uuid_or_none" => _validate_uuid_or_none data params.toPy
    | "type:uuid_list" => _validate_uuid_list data params.toPy
  | "type:values" => _validate_values data params.toPy
  | "type:boolean" => _validate_boolean data params.toPy
  | _ => .ok Option.none

/-- `_validate_dict_item(key, key_validator, data)`, parameterized like
`dispatchWith` by the dict-schema validator: apply the optional converter
first, writing `data[key]` in place (a raising converter escapes
unhandled); then scan for the first `type:*` entry, report a tag missing
from the registry as the "does not exist" message, and otherwise dispatch
on the (possibly converted) value.  Returns the message together with the
(possibly updated) dictionary that the Python original mutates in
place. -/
def _validate_dict_item_with
    (validate_dict_cb :
      PyVal → List (String × KeySpec) → Except PyExc (Option String × PyVal))
    (key : String) (key_validator : KeySpec)
    (data : List (String × PyVal)) :
    Except PyExc (Option String × List (String × PyVal)) := do
  let data ←
    match key_validator.convert with
    | some conv_func => do
      let v ← conv_func (dictGet data key)
      pure (dictSet data key v)
    | Option.none => pure data
  match findTypeEntry key_validator.entries with
  | Option.none => pure (Option.none, data)
  | some (k, val_params) =>
    if registryTags.contains k then do
      let msg ← dispatchWith validate_dict_cb k (dictGet data key) val_params
      pure (msg, data)
    else pure (some ("Validator '" ++ k ++ "' does not exist."), data)

/-- One step of the per-key loop of `_validate_dict`: Python's `for` with
an early `return` becomes a fold whose accumulator freezes on the first
message or raised exception, so later keys are not processed. -/
def _validate_dict_step
    (item :
      String → KeySpec → List (String × PyVal) →
        Except PyExc (Option String × List (String × PyVal)))
    (acc : Except PyExc (Option String × List (String × PyVal)))
    (ks : String × KeySpec) :
    Except PyExc (Option String × List (String × PyVal)) :=
  match acc with
  | .error e => .error e
  | .ok (some m, entries) => .ok (some m, entries)
  | .ok (Option.none, entries) => item ks.1 ks.2 entries

/-- `_validate_dict(data, key_specs=None)`: reject non-dictionaries,
succeed on an empty/absent spec, check the required keys as a subset
(non-strict) before anything else, then convert and validate the keys
present in both the data and the specs, in spec iteration order,
aborting on the first message.  Returns the message together with the
dictionary the original mutates in place.  The recursion into nested
dict-family validators is structural on a fuel argument; the top-level
entry point supplies more fuel than any nesting depth of its schema, so
the out-of-fuel answer is unreachable there. -/
def _validate_dict_fuel : Nat → PyVal → List (String × KeySpec) →
    Except PyExc (Option String × PyVal)
  | 0, data, _ => .ok (Option.none, data)
  | fuel + 1, data, key_specs =>
    match data with
    | .dict entries =>
      if key_specs.isEmpty then .ok (Option.none, data)
      else
        let required_keys := requiredKeysOf key_specs
        let requiredMsg :=
          if required_keys.isEmpty then Option.none
          else _verify_dict_keys required_keys data false
        match requiredMsg with
        | some msg => .ok (some msg, data)
        | Option.none =>
          let pending := key_specs.filter (fun ks => dictHasKey entries ks.1)
          let looped :=
            pending.foldl
              (_validate_dict_step
                (_validate_dict_item_with (_validate_dict_fuel fuel)))
              (.ok (Option.none, entries))
          match looped with
          | .error e => .error e
          | .ok (msg, entries₂) => .ok (msg, .dict entries₂)
    | _ => .ok (some ("'" ++ pyStr data ++ "' is not a dictionary"), data)

/-- The fuel supplied by the top-level entry points: one more than the
size of the schema, which dominates its nesting depth. -/
def specsFuel (key_specs : List (String × KeySpec)) : Nat :=
  keySpecsSize key_specs + 1

/-- `_validate_dict(data, key_specs=None)` as called from outside. -/
def _validate_dict (data : PyVal) (key_specs : List (String × KeySpec)) :
    Except PyExc (Option String × PyVal) :=
  _validate_dict_fuel (specsFuel key_specs) data key_specs

/-- `_validate_dict_item(key, key_validator, data)` as called from
outside: the registry's dict family closes over the module-level
dict-schema validator. -/
def _validate_dict_item (key : String) (key_validator : KeySpec)
    (data : List (String × PyVal)) :
    Except PyExc (Option String × List (String × PyVal)) :=
  _validate_dict_item_with _validate_dict key key_validator data

/-- `_validate_dict_or_none(data, key_specs=None)`. -/
def _validate_dict_or_none (data : PyVal)
    (key_specs : List (String × KeySpec)) :
    Except PyExc (Option String × PyVal) :=
  match data with
  | .none => .ok (Option.none, data)
  | _ => _validate_dict data key_specs

/-- `_validate_dict_or_empty(data, key_specs=None)`. -/
def _validate_dict_or_empty (data : PyVal)
    (key_specs : List (String × KeySpec)) :
    Except PyExc (Option String × PyVal) :=
  if pyEq data (.dict []) then .ok (Option.none, data)
  else _validate_dict data key_specs

/-- `_validate_dict_or_nodata(data, key_specs=None)`. -/
def _validate_dict_or_nodata (data : PyVal)
    (key_specs : List (String × KeySpec)) :
    Except PyExc (Option String × PyVal) :=
  if pyTruthy data then _validate_dict data key_specs
  else .ok (Option.none, data)

/-! ### Pattern constants -/

/-- `HEX_ELEM`. -/
def HEX_ELEM : String := "[0-9A-Fa-f]"

/-- `UUID_PATTERN`. -/
def UUID_PATTERN : String :=
  HEX_ELEM ++ "\x7b8\x7d-" ++ HEX_ELEM ++ "\x7b4\x7d-" ++ HEX_ELEM ++
    "\x7b4\x7d-" ++ HEX_ELEM ++ "\x7b4\x7d-" ++ HEX_ELEM ++ "\x7b12\x7d"

/-- `MAC_PATTERN`: the source notes "In order to ensure that the MAC
address is unicast the first byte must be even" — the second hex digit of
the first octet is drawn from the even digits. -/
def MAC_PATTERN : String :=
  "^" ++ HEX_ELEM ++ "[aceACE02468](:" ++ HEX_ELEM ++ "\x7b2\x7d)\x7b5\x7d$"

/-- A hex digit with even value (the class `[aceACE02468]`). -/
def isEvenHexChar (c : Char) : Bool :=
  "aceACE02468".data.contains c

/-- Five repetitions of `:` followed by two hex digits. -/
def colonPairs : List Char → Nat → Bool
  | [], 0 => true
  | ':' :: a :: b :: rest, n + 1 =>
    isHexDigit2 a && isHexDigit2 b && colonPairs rest n
  | _, _ => false

/-- Semantic reading of the `MAC_PATTERN` regex: a full-width match of
`^[0-9A-Fa-f][aceACE02468](:[0-9A-Fa-f]{2}){5}$`, i.e. a colon-hex MAC
with two-digit groups whose first octet is even (unicast). -/
def macPatternAccepts (s : String) : Bool :=
  match s.data with
  | c₀ :: c₁ :: rest => isHexDigit2 c₀ && isEvenHexChar c₁ && colonPairs rest 5
  | _ => false

/-! ### `neutron_lib/policy.py`

The `oslo_policy` engine is an external collaborator (explicitly out of
scope per the spec): an enforcer is modelled as its set of loaded rule
names together with an opaque boolean rule evaluation.  The module-level
`POLICY_ENFORCER` singleton becomes an explicit value: `check_is_admin`
and `check_is_advsvc` first call the idempotent `init()`, so they run
against a live enforcer, which the model passes as an argument. -/

/-- The credentials mapping derived from a request context. -/
abbrev Credentials := List (String × PyVal)

/-- Modelled from the spec: the external `oslo_policy` `Enforcer` after
`load_rules`, reduced to the surface this module consumes — the names
present in `.rules` and the boolean `enforce(rule, target, creds)`
evaluation. -/
structure Enforcer where
  ruleNames : List String
  enforce : String → Credentials → Credentials → Bool

/-- A request context, reduced to the `to_dict()` surface this module
consumes. -/
structure Context where
  to_dict : Credentials

/-- `ADMIN_CTX_POLICY`. -/
def ADMIN_CTX_POLICY : String := "context_is_admin"

/-- `ADVSVC_CTX_POLICY`. -/
def ADVSVC_CTX_POLICY : String := "context_is_advsvc"

/-- `reset()`: clear the singleton (idempotent). -/
def reset (_current : Option Enforcer) : Option Enforcer := Option.none

/-- `init(conf, policy_file)`: construct and load an enforcer only when
none is live (idempotent); `fresh` stands for the instance the external
engine would construct. -/
def init (current : Option Enforcer) (fresh : Enforcer) : Option Enforcer :=
  match current with
  | some e => some e
  | Option.none => some fresh

/-- `refresh(policy_file)`: `reset` then `init`. -/
def refresh (current : Option Enforcer) (fresh : Enforcer) : Option Enforcer :=
  init (reset current) fresh

/-- `check_is_admin(context)` against the live (post-`init`) enforcer:
`False` when the rule name is not loaded, otherwise the enforcement
result with the context's credentials as both target and subject. -/
def check_is_admin (enforcer : Enforcer) (context : Context) : Bool :=
  let credentials := context.to_dict
  if ¬enforcer.ruleNames.contains ADMIN_CTX_POLICY then false
  else enforcer.enforce ADMIN_CTX_POLICY credentials credentials

/-- `check_is_advsvc(context)` against the live (post-`init`)
enforcer. -/
def check_is_advsvc (enforcer : Enforcer) (context : Context) : Bool :=
  let credentials := context.to_dict
  if ¬enforcer.ruleNames.contains ADVSVC_CTX_POLICY then false
  else enforcer.enforce ADVSVC_CTX_POLICY credentials credentials

/-! ### `neutron_lib/tests/tools.py`

`UnorderedList.__eq__` compares `sorted(self, key=utils.safe_sort_key)`
with `sorted(other, ...)` after an `isinstance(other, list)` guard.
`utils.safe_sort_key` lives in `neutron_lib/utils.py`, which is not among
the sources; per the spec it is "a stable externally-supplied sort key",
so the model takes the key function as a parameter.  Python's `sorted` is
a stable comparison sort by key, modelled by `insertionSort` under the
key-induced relation. -/

/-- `sorted(xs, key=key)`. -/
def pySortedByKey {α β : Type} [LinearOrder β] (key : α → β)
    (xs : List α) : List α :=
  List.insertionSort (fun a b => key a ≤ key b) xs

/-- The right operand of `UnorderedList.__eq__`: either a list (an
`UnorderedList` is itself a `list` subclass, so both spellings land
here) or any non-list value, which `isinstance(other, list)` screens
out. -/
inductive PyOperand (α : Type) where
  | list (xs : List α)
  | nonList

/-- `UnorderedList.__eq__(self, other)` with the externally supplied
sort key. -/
def UnorderedList.eq {α β : Type} [DecidableEq α] [LinearOrder β]
    (key : α → β) (self : List α) (other : PyOperand α) : Bool :=
  match other with
  | .list ys => decide (pySortedByKey key self = pySortedByKey key ys)
  | .nonList => false

/-- The diagnostic `_verify_dict_keys` produces when required keys are
missing from a dictionary: the expected (required) keys against the
provided keys, both rendered as sets. -/
def requiredKeysDiagnostic (key_specs : List (String × KeySpec))
    (entries : List (String × PyVal)) : String :=
  "Validation of dictionary's keys failed. Expected keys: " ++
    renderStrSet (requiredKeysOf key_specs) ++ " Provided keys: " ++
    renderStrSet (dictKeys entries)

/-! ### Auxiliary lemmas -/

/-- A string starting with a non-empty string is non-empty. -/
theorem append_ne_empty_left (s t : String) (h : s.data ≠ []) :
    s ++ t ≠ "" := by
  intro hc
  have h₂ := congrArg String.data hc
  rw [String.data_append] at h₂
  simp only [List.append_eq_nil] at h₂
  · exact h h₂.1

/-- The single-quote prefix shared by the diagnostics is non-empty. -/
theorem quote_msg_ne_empty (t : String) : ("'" ++ t) ≠ "" :=
  append_ne_empty_left "'" t (by decide)

/-- Appending on the right preserves a non-empty underlying list. -/
theorem data_append_ne_nil (a b : String) (h : a.data ≠ []) :
    (a ++ b).data ≠ [] := by
  rw [String.data_append]
  exact fun hc => h (List.append_eq_nil.mp hc).1

/-- `key in data` agrees with membership in the key list. -/
theorem dictHasKey_eq_contains (entries : List (String × PyVal))
    (k : String) : dictHasKey entries k = (dictKeys entries).contains k := by
  induction entries with
  | nil => rfl
  | cons kv rest ih =>
    simp only [dictHasKey, dictKeys, List.any_cons, List.map_cons,
      List.contains_cons] at *
    rw [ih]
    by_cases hk : kv.1 = k
    · simp [hk]
    · simp [hk, Ne.symm hk]

/-- A subset check fails at a missing member. -/
theorem strSubset_false_of_missing {xs ys : List String} {k : String}
    (hk : k ∈ xs) (hmem : ys.contains k = false) :
    strSubset xs ys = false := by
  unfold strSubset
  exact List.all_eq_false.mpr ⟨k, hk, by simp only [hmem]; decide⟩

/-- A subset check passes when every member is contained. -/
theorem strSubset_true {xs ys : List String}
    (h : ∀ x ∈ xs, ys.contains x = true) : strSubset xs ys = true := by
  unfold strSubset
  exact List.all_eq_true.mpr h

/-- `str.split(sep, 1)` on a string without the separator. -/
theorem splitSepOnce_of_not_mem (sep : Char) (l : List Char)
    (h : sep ∉ l) : splitSepOnce sep l = [l] := by
  induction l with
  | nil => rfl
  | cons c cs ih =>
    have hc : ¬c = sep := fun hcs => h (hcs ▸ List.mem_cons_self c cs)
    have hcs : sep ∉ cs := fun hm => h (List.mem_cons_of_mem c hm)
    simp only [splitSepOnce, if_neg hc, ih hcs]

/-- `str.split(sep, 1)` at the first occurrence of the separator. -/
theorem splitSepOnce_append (sep : Char) (pre post : List Char)
    (h : sep ∉ pre) :
    splitSepOnce sep (pre ++ sep :: post) = [pre, post] := by
  induction pre with
  | nil => simp [splitSepOnce]
  | cons c cs ih =>
    have hc : ¬c = sep := fun hcs => h (hcs ▸ List.mem_cons_self c cs)
    have hcs : sep ∉ cs := fun hm => h (List.mem_cons_of_mem c hm)
    simp only [List.cons_append, splitSepOnce, if_neg hc, List.append_eq,
      ih hcs]

/-- `_validate_dict` on a singleton schema whose key is present reduces
to the per-key step (the required-keys check passes whether or not the
key spec is marked required, because the key is present). -/
theorem validate_dict_single (entries : List (String × PyVal)) (k : String)
    (spec : KeySpec) (hk : dictHasKey entries k = true) :
    _validate_dict (.dict entries) [(k, spec)] =
      match
        _validate_dict_item_with
          (_validate_dict_fuel (keySpecsSize [(k, spec)])) k spec entries
      with
      | .error e => .error e
      | .ok (msg, entries₂) => .ok (msg, .dict entries₂) := by
  have hcont : (dictKeys entries).contains k = true := by
    rw [← dictHasKey_eq_contains]; exact hk
  have hpend :
      [(k, spec)].filter (fun ks => dictHasKey entries ks.1) = [(k, spec)] :=
    by simp [List.filter, hk]
  simp only [_validate_dict, specsFuel, _validate_dict_fuel]
  cases hr : spec.required with
  | true =>
    have hreq : requiredKeysOf [(k, spec)] = [k] := by
      simp [requiredKeysOf, hr]
    have hsub : strSubset [k] (dictKeys entries) = true :=
      strSubset_true (by intro x hx; cases hx with
        | head => exact hcont
        | tail _ hx => cases hx)
    simp only [List.isEmpty_cons, hreq, _verify_dict_keys, hsub,
      if_true, hpend, List.foldl_cons, List.foldl_nil,
      _validate_dict_step]
    simp
  | false =>
    have hreq : requiredKeysOf [(k, spec)] = [] := by
      simp [requiredKeysOf, hr]
    simp only [List.isEmpty_cons, hreq, List.isEmpty_nil, if_true, hpend,
      List.foldl_cons, List.foldl_nil, _validate_dict_step]
    simp

/-! ### Claim C3 -/

/-- C3 counterexample: the claim says `_validate_mac_address` rejects
every well-formed colon-hex MAC whose first octet has its low bit set,
naming `"01:00:5e:00:00:00"`; the validator in fact accepts it (returns
`None`), because `netaddr.valid_mac` is purely syntactic.  The unicast
restriction lives only in the separate `MAC_PATTERN` constant, which
does reject this address while accepting the unicast example. -/
theorem spec_c3_counterexample :
    _validate_mac_address (.str "01:00:5e:00:00:00") .none =
      .ok Option.none ∧
    macPatternAccepts "01:00:5e:00:00:00" = false ∧
    macPatternAccepts "fa:16:3e:12:34:56" = true :=
  ⟨rfl, rfl, rfl⟩

/-- C3 (amended): `_validate_mac_address` accepts (returns `None` for)
every well-formed colon-hex MAC address — one that parses as EUI-48 and
contains no whitespace — whose value is not in the blacklist (the
all-zero and broadcast addresses), regardless of the multicast bit of
the first octet; the unicast restriction is encoded only in the
`MAC_PATTERN` regex constant, which `_validate_mac_address` does not
consult. -/
theorem spec_c3 (s : String) (v : Nat) (hws : hasPyWs s = false)
    (hv : macValue? s = some v) (h₀ : v ≠ 0)
    (h₁ : v ≠ 281474976710655) :
    _validate_mac_address (.str s) .none = .ok Option.none := by
  have e₀ : macValue? "00:00:00:00:00:00" = some 0 := rfl
  have e₁ : macValue? "ff:ff:ff:ff:ff:ff" = some 281474976710655 := rfl
  have hvm : netaddrValidMac s = true := by
    unfold netaddrValidMac
    rw [hv]
    rfl
  simp only [_validate_mac_address, hws, Bool.false_eq_true, if_false,
    hvm, if_true, INVALID_MAC_ADDRESSES, List.any_cons, List.any_nil,
    e₀, e₁, hv, Option.some.injEq]
  simp [Ne.symm h₀, Ne.symm h₁]

/-- C3 witness: the multicast address `"01:00:5e:00:00:00"` and the
unicast address `"fa:16:3e:12:34:56"` are both accepted. -/
theorem spec_c3_witness :
    _validate_mac_address (.str "01:00:5e:00:00:00") .none =
      .ok Option.none ∧
    _validate_mac_address (.str "fa:16:3e:12:34:56") .none =
      .ok Option.none :=
  ⟨spec_c3 "01:00:5e:00:00:00" 1101088686080 rfl rfl (by decide) (by decide),
   spec_c3 "fa:16:3e:12:34:56" 274973437604950 rfl rfl (by decide)
     (by decide)⟩

/-! ### Claim C4 -/

/-- C4 counterexample: the claim says whitespace-bearing input makes
`_validate_mac_address` and `_validate_subnet` propagate the typed
`InvalidInput` exception raised by `_validate_no_whitespace`; both
validators in fact catch it (`except Exception:`) and *return* an
error-message string. -/
theorem spec_c4_counterexample :
    _validate_mac_address (.str "aa bb") .none =
      .ok (some "'aa bb' is not a valid MAC address") ∧
    _validate_subnet (.str "10.0.0.0 /24") .none =
      .ok (some "'10.0.0.0 /24' is not a valid IP subnet") :=
  ⟨rfl, rfl⟩

/-- C4 (amended): for every input string containing whitespace,
`_validate_mac_address` and `_validate_subnet` catch the typed
invalid-input exception raised by `_validate_no_whitespace` inside their
blanket `except Exception:` handlers and report the failure by
*returning* their respective error-message strings; no exception reaches
the caller. -/
theorem spec_c4 (s : String) (hws : hasPyWs s = true) :
    _validate_mac_address (.str s) .none =
      .ok (some ("'" ++ s ++ "' is not a valid MAC address")) ∧
    _validate_subnet (.str s) .none =
      .ok (some ("'" ++ s ++ "' is not a valid IP subnet")) := by
  constructor
  · simp [_validate_mac_address, hws, pyStr]
  · simp [_validate_subnet, hws, pyStr]

/-- C4 witness: the whitespace-bearing string `"a b"`. -/
theorem spec_c4_witness :
    _validate_mac_address (.str "a b") .none =
      .ok (some ("'" ++ "a b" ++ "' is not a valid MAC address")) ∧
    _validate_subnet (.str "a b") .none =
      .ok (some ("'" ++ "a b" ++ "' is not a valid IP subnet")) :=
  spec_c4 "a b" rfl

/-! ### Claim C6 -/

/-- C6 counterexample: the claim says the value list of a duplicated key
preserves the insertion order of the values; the code accumulates the
values in a Python *set* (`kvp_map[key].add(value)`) and returns
`list(...)` of it, whose iteration order is not insertion order (it is
canonicalized as sorted in the model): inserting `"2"` then `"1"` under
key `"b"` yields `["1", "2"]`, not the insertion order `["2", "1"]`. -/
theorem spec_c6_counterexample :
    convert_kvp_list_to_dict [.str "b=2", .str "b=1"] =
      .ok [("b", ["1", "2"])] ∧
    (["1", "2"] : List String) ≠ ["2", "1"] :=
  ⟨rfl, by decide⟩

/-- C6 (amended): `convert_kvp_list_to_dict(["a=1","a=2","b=3"])` returns
`{"a": ["1", "2"], "b": ["3"]}` and `convert_kvp_list_to_dict(["True"])`
returns the empty mapping; duplicate keys merge into a deduplicated
value list, but the order within a key's value list is the unspecified
iteration order of a Python set (canonicalized as sorted in the model),
not the insertion order of the values — the two coincide on the quoted
example. -/
theorem spec_c6 :
    convert_kvp_list_to_dict [.str "a=1", .str "a=2", .str "b=3"] =
      .ok [("a", ["1", "2"]), ("b", ["3"])] ∧
    convert_kvp_list_to_dict [.str "True"] = .ok [] :=
  ⟨rfl, rfl⟩

/-! ### Claim C7 -/

/-- C7 counterexample: the claim says an entry with more than one `=` is
rejected by raising; `data.split('=', 1)` splits at the first `=` only,
so `"a=b=c"` (two `=`) is accepted, the second `=` remaining in the
value. -/
theorem spec_c7_counterexample :
    convert_kvp_str_to_list (.str "a=b=c") = .ok ("a", "b=c") ∧
    "a=b=c".data.count '=' = 2 :=
  ⟨rfl, rfl⟩

/-- C7 (amended): `convert_kvp_str_to_list` raises the typed
invalid-input error exactly when the entry contains no `=` at all or the
part before the *first* `=` strips to the empty string; with at least
one `=` and a non-blank key it returns the stripped key and the stripped
remainder (further `=` characters stay inside the value). -/
theorem spec_c7 :
    (∀ s : String, '=' ∉ s.data →
      convert_kvp_str_to_list (.str s) =
        .error (.invalidInput ("'" ++ s ++ "' is not of the form <key>=[value]")))
    ∧ (∀ (s : String) (pre post : List Char), s.data = pre ++ '=' :: post →
        '=' ∉ pre → pyStrip ⟨pre⟩ = "" →
        convert_kvp_str_to_list (.str s) =
          .error
            (.invalidInput ("'" ++ s ++ "' is not of the form <key>=[value]")))
    ∧ ∀ (s : String) (pre post : List Char), s.data = pre ++ '=' :: post →
        '=' ∉ pre → pyStrip ⟨pre⟩ ≠ "" →
        convert_kvp_str_to_list (.str s) =
          .ok (pyStrip ⟨pre⟩, pyStrip ⟨post⟩) := by
  refine ⟨fun s hs => ?_, fun s pre post hdata hpre hblank => ?_,
    fun s pre post hdata hpre hblank => ?_⟩
  · simp only [convert_kvp_str_to_list, splitSepOnce_of_not_mem _ _ hs,
      List.map_cons, List.map_nil]
  · simp only [convert_kvp_str_to_list, hdata,
      splitSepOnce_append _ _ _ hpre, List.map_cons, List.map_nil,
      hblank, ne_eq, not_true_eq_false, if_false]
  · simp only [convert_kvp_str_to_list, hdata,
      splitSepOnce_append _ _ _ hpre, List.map_cons, List.map_nil, ne_eq,
      hblank, not_false_eq_true, if_true]

/-- C7 witness: `"ab"` (no `=`) raises, `" =b"` (blank key) raises,
`"a=b"` converts to `("a", "b")`. -/
theorem spec_c7_witness :
    convert_kvp_str_to_list (.str "ab") =
      .error (.invalidInput ("'" ++ "ab" ++ "' is not of the form <key>=[value]")) ∧
    convert_kvp_str_to_list (.str " =b") =
      .error
        (.invalidInput ("'" ++ " =b" ++ "' is not of the form <key>=[value]")) ∧
    convert_kvp_str_to_list (.str "a=b") =
      .ok (pyStrip ⟨['a']⟩, pyStrip ⟨['b']⟩) :=
  ⟨spec_c7.1 "ab" (by decide),
   spec_c7.2.1 " =b" [' '] ['b'] rfl (by decide) (by decide),
   spec_c7.2.2 "a=b" ['a'] ['b'] rfl (by decide) (by decide)⟩

/-! ### Claim C1 -/

/-- C1: if any key marked required in the key specs is absent from the
data dictionary, `_validate_dict` returns the non-empty diagnostic
listing the expected (required) keys against the provided keys — for
*every* schema, whatever converters or validators it attaches to the
present fields — and the returned dictionary is the untouched input, so
the check runs before any per-field conversion or validation;
and the required-key check is a subset check: whenever every required
key is present, `_verify_dict_keys` (non-strict, as `_validate_dict`
calls it) passes regardless of extra keys in the data. -/
theorem spec_c1 :
    (∀ (entries : List (String × PyVal))
        (key_specs : List (String × KeySpec)) (k : String) (spec : KeySpec),
        (k, spec) ∈ key_specs → spec.required = true →
        dictHasKey entries k = false →
        _validate_dict (.dict entries) key_specs =
          .ok (some (requiredKeysDiagnostic key_specs entries),
            .dict entries) ∧
        requiredKeysDiagnostic key_specs entries ≠ "")
    ∧ ∀ (entries : List (String × PyVal))
        (key_specs : List (String × KeySpec)),
        (∀ x ∈ requiredKeysOf key_specs, dictHasKey entries x = true) →
        _verify_dict_keys (requiredKeysOf key_specs) (.dict entries) false =
          Option.none := by
  constructor
  · intro entries key_specs k spec hmem hreq hnk
    have hkreq : k ∈ requiredKeysOf key_specs :=
      List.mem_filterMap.mpr ⟨(k, spec), hmem, by simp [hreq]⟩
    have hne : key_specs ≠ [] := by rintro rfl; cases hmem
    have hreqne : requiredKeysOf key_specs ≠ [] := by
      intro h₀; rw [h₀] at hkreq; cases hkreq
    have hsub :
        strSubset (requiredKeysOf key_specs) (dictKeys entries) = false :=
      strSubset_false_of_missing hkreq
        (by rw [← dictHasKey_eq_contains]; exact hnk)
    have hverify :
        _verify_dict_keys (requiredKeysOf key_specs) (.dict entries) false =
          some (requiredKeysDiagnostic key_specs entries) := by
      simp [_verify_dict_keys, hsub, requiredKeysDiagnostic]
    refine ⟨?_, ?_⟩
    · have h₁ : key_specs.isEmpty = false := by
        simp [List.isEmpty_eq_false, hne]
      have h₂ : (requiredKeysOf key_specs).isEmpty = false := by
        simp [List.isEmpty_eq_false, hreqne]
      simp only [_validate_dict, specsFuel, _validate_dict_fuel, h₁, h₂,
        Bool.false_eq_true, if_false, hverify]
    · unfold requiredKeysDiagnostic
      exact append_ne_empty_left _ _
        (data_append_ne_nil _ _ (data_append_ne_nil _ _ (by decide)))
  · intro entries key_specs hall
    have hsub :
        strSubset (requiredKeysOf key_specs) (dictKeys entries) = true :=
      strSubset_true
        (fun x hx => by rw [← dictHasKey_eq_contains]; exact hall x hx)
    simp [_verify_dict_keys, hsub]

/-- C1 witness: the spec's own example — `{"name": "x"}` against
`{"name": {required, type:string}, "age": {required}}` fails with the
required-keys diagnostic and the data is untouched, although `"name"`
itself would validate; and a data dictionary with an extra key passes
the non-strict required-keys check. -/
theorem spec_c1_witness :
    (_validate_dict (.dict [("name", .str "x")])
        [("name", .mk true Option.none [("type:string", .py .none)]),
         ("age", .mk true Option.none [])] =
      .ok
        (some
          (requiredKeysDiagnostic
            [("name", .mk true Option.none [("type:string", .py .none)]),
             ("age", .mk true Option.none [])]
            [("name", .str "x")]),
          .dict [("name", .str "x")]) ∧
      requiredKeysDiagnostic
        [("name", .mk true Option.none [("type:string", .py .none)]),
         ("age", .mk true Option.none [])] [("name", .str "x")] ≠ "") ∧
    _verify_dict_keys
      (requiredKeysOf [("a", KeySpec.mk true Option.none [])])
      (.dict [("a", .int 1), ("extra", .int 2)]) false = Option.none :=
  ⟨spec_c1.1 [("name", .str "x")]
      [("name", .mk true Option.none [("type:string", .py .none)]),
       ("age", .mk true Option.none [])] "age"
      (.mk true Option.none [])
      (List.mem_cons_of_mem _ (List.mem_cons_self _ _)) rfl rfl,
   spec_c1.2 [("a", .int 1), ("extra", .int 2)]
     [("a", KeySpec.mk true Option.none [])]
     (by intro x hx; cases hx with
       | head => rfl
       | tail _ hx => cases hx)⟩

/-! ### Claim C2 -/

/-- C2: when the first `type:*` entry of a key spec names a tag absent
from the validators registry, `_validate_dict_item` — for any dict-schema
callback the registry's dict family might close over, and after the
optional conversion step (absent, or applied successfully) —
*returns* the non-empty message "Validator ... does not exist." instead
of raising, and `_validate_dict` on a dictionary containing that key
surfaces the same message. -/
theorem spec_c2 :
    (∀ (vd : PyVal → List (String × KeySpec) →
          Except PyExc (Option String × PyVal))
        (key : String) (spec : KeySpec) (data : List (String × PyVal))
        (tag : String) (params : SpecParam),
        spec.convert = Option.none →
        findTypeEntry spec.entries = some (tag, params) →
        registryTags.contains tag = false →
        _validate_dict_item_with vd key spec data =
          .ok (some ("Validator '" ++ tag ++ "' does not exist."), data))
    ∧ (∀ (vd : PyVal → List (String × KeySpec) →
          Except PyExc (Option String × PyVal))
        (key : String) (spec : KeySpec) (data : List (String × PyVal))
        (tag : String) (params : SpecParam)
        (f : PyVal → Except PyExc PyVal) (v : PyVal),
        spec.convert = some f → f (dictGet data key) = .ok v →
        findTypeEntry spec.entries = some (tag, params) →
        registryTags.contains tag = false →
        _validate_dict_item_with vd key spec data =
          .ok (some ("Validator '" ++ tag ++ "' does not exist."),
            dictSet data key v))
    ∧ (∀ (entries : List (String × PyVal)) (k : String) (spec : KeySpec)
        (tag : String) (params : SpecParam),
        spec.convert = Option.none →
        findTypeEntry spec.entries = some (tag, params) →
        registryTags.contains tag = false →
        dictHasKey entries k = true →
        _validate_dict (.dict entries) [(k, spec)] =
          .ok (some ("Validator '" ++ tag ++ "' does not exist."),
            .dict entries))
    ∧ ∀ tag : String, ("Validator '" ++ tag ++ "' does not exist.") ≠ "" := by
  have part₁ : ∀ (vd : PyVal → List (String × KeySpec) →
        Except PyExc (Option String × PyVal))
      (key : String) (spec : KeySpec) (data : List (String × PyVal))
      (tag : String) (params : SpecParam),
      spec.convert = Option.none →
      findTypeEntry spec.entries = some (tag, params) →
      registryTags.contains tag = false →
      _validate_dict_item_with vd key spec data =
        .ok (some ("Validator '" ++ tag ++ "' does not exist."), data) := by
    intro vd key spec data tag params hconv hfind hreg
    have hmem : tag ∉ registryTags := by simpa using hreg
    simp [_validate_dict_item_with, hconv, hfind, hmem, Pure.pure,
      Except.pure, Bind.bind, Except.bind]
  refine ⟨part₁, ?_, ?_, ?_⟩
  · intro vd key spec data tag params f v hconv hok hfind hreg
    have hmem : tag ∉ registryTags := by simpa using hreg
    simp [_validate_dict_item_with, hconv, hok, hfind, hmem, Bind.bind,
      Except.bind, Pure.pure, Except.pure]
  · intro entries k spec tag params hconv hfind hreg hk
    rw [validate_dict_single entries k spec hk,
      part₁ _ k spec entries tag params hconv hfind hreg]
  · intro tag
    exact append_ne_empty_left _ _ (data_append_ne_nil _ _ (by decide))

/-- C2 witness: a key spec referencing the unregistered tag
`type:bogus` draws the "does not exist" message from both
`_validate_dict_item` (the module-level instantiation of the
parameterized item function) and `_validate_dict`. -/
theorem spec_c2_witness :
    _validate_dict_item_with _validate_dict "k"
      (.mk false Option.none [("type:bogus", .py .none)])
      [("k", .str "v")] =
      .ok (some ("Validator '" ++ "type:bogus" ++ "' does not exist."),
        [("k", .str "v")]) ∧
    _validate_dict (.dict [("k", .str "v")])
      [("k", .mk false Option.none [("type:bogus", .py .none)])] =
      .ok (some ("Validator '" ++ "type:bogus" ++ "' does not exist."),
        .dict [("k", .str "v")]) ∧
    ("Validator '" ++ "type:bogus" ++ "' does not exist.") ≠ "" :=
  ⟨spec_c2.1 _validate_dict "k"
      (.mk false Option.none [("type:bogus", .py .none)])
      [("k", .str "v")] "type:bogus" (.py .none) rfl rfl rfl,
   spec_c2.2.2.1 [("k", .str "v")] "k"
     (.mk false Option.none [("type:bogus", .py .none)]) "type:bogus"
     (.py .none) rfl rfl rfl rfl,
   spec_c2.2.2.2 "type:bogus"⟩

/-! ### Claim C10 -/

/-- C10: `_validate_dict` is not atomic on failure.  First, concretely:
with a schema converting key `"a"` to an integer and validating key
`"b"` as a boolean, the input `{"a": "7", "b": "x"}` fails on `"b"` yet
comes back with `"a"` already replaced by the converted `7` — the
conversion applied to the earlier-processed key remains in the target
dictionary.  Second, generally: a converter that raises the typed
invalid-input error inside `_validate_dict_item` propagates that
exception out of `_validate_dict` instead of being returned as a
message. -/
theorem spec_c10 :
    (_validate_dict (.dict [("a", .str "7"), ("b", .str "x")])
        [("a", .mk false (some convert_to_int) []),
         ("b", .mk false Option.none [("type:boolean", .py .none)])] =
      .ok (some "'x' is not a valid boolean value",
        .dict [("a", .int 7), ("b", .str "x")]))
    ∧ ∀ (entries : List (String × PyVal)) (k : String) (spec : KeySpec)
        (f : PyVal → Except PyExc PyVal) (e : PyExc),
        spec.convert = some f → f (dictGet entries k) = .error e →
        dictHasKey entries k = true →
        _validate_dict (.dict entries) [(k, spec)] = .error e := by
  refine ⟨rfl, ?_⟩
  intro entries k spec f e hconv herr hk
  rw [validate_dict_single entries k spec hk]
  simp [_validate_dict_item_with, hconv, herr, Bind.bind, Except.bind,
    Pure.pure, Except.pure]

/-- C10 witness: the raising-converter case at a concrete input — the
strict integer converter raises on `"x"` and the exception escapes
`_validate_dict`. -/
theorem spec_c10_witness :
    _validate_dict (.dict [("a", .str "x")])
      [("a", .mk false (some convert_to_int) [])] =
      .error (.invalidInput "'x' is not a integer") :=
  spec_c10.2 [("a", .str "x")] "a" (.mk false (some convert_to_int) [])
    convert_to_int (.invalidInput "'x' is not a integer") rfl rfl rfl

/-! ### Claim C5 -/

/-- C5: `_validate_subnet` returns `None` for the canonical IPv4 CIDR
`"10.0.0.0/24"`; for every parseable IPv4 CIDR whose string differs from
its canonical network rendering it returns the non-empty message
recommending the canonical form; and for every input lacking a `/` it
returns a non-empty message. -/
theorem spec_c5 :
    (_validate_subnet (.str "10.0.0.0/24") .none = .ok Option.none)
    ∧ (∀ (s : String) (net : IPNet), hasPyWs s = false →
        ipnetParse? s = some net → net.version = 4 → ipnetStr net ≠ s →
        _validate_subnet (.str s) .none =
          .ok (some ("'" ++ s ++ "' isn't a recognized IP subnet cidr, '" ++
            ipnetCidrStr net ++ "' is recommended")) ∧
        ("'" ++ s ++ "' isn't a recognized IP subnet cidr, '" ++
          ipnetCidrStr net ++ "' is recommended") ≠ "")
    ∧ ∀ s : String, s.data.contains '/' = false →
        ∃ m, _validate_subnet (.str s) .none = .ok (some m) ∧ m ≠ "" := by
  refine ⟨rfl, ?_, ?_⟩
  · intro s net hws hnet h₄ hne
    have hcond :
        ¬s.data.contains '/' ∨ (net.version = 4 ∧ ipnetStr net ≠ s) :=
      Or.inr ⟨h₄, hne⟩
    refine ⟨?_, ?_⟩
    · simp only [_validate_subnet, hws, Bool.false_eq_true, if_false, hnet]
      rw [if_pos hcond]
    · exact append_ne_empty_left _ _ (data_append_ne_nil _ _
        (data_append_ne_nil _ _ (data_append_ne_nil _ _ (by decide))))
  · intro s hc
    have hcb : ¬(s.data.contains '/' = true) := by
      simp only [hc]
      decide
    by_cases hws : hasPyWs s = true
    · refine ⟨"'" ++ s ++ "' is not a valid IP subnet", ?_, ?_⟩
      · simp [_validate_subnet, hws]
      · exact append_ne_empty_left _ _ (data_append_ne_nil _ _ (by decide))
    · have hws' : hasPyWs s = false := by
        cases h : hasPyWs s
        · rfl
        · exact absurd h hws
      cases hnet : ipnetParse? s with
      | none =>
        refine ⟨"'" ++ s ++ "' is not a valid IP subnet", ?_, ?_⟩
        · simp [_validate_subnet, hws', hnet]
        · exact append_ne_empty_left _ _ (data_append_ne_nil _ _ (by decide))
      | some net =>
        refine ⟨"'" ++ s ++ "' isn't a recognized IP subnet cidr, '" ++
          ipnetCidrStr net ++ "' is recommended", ?_, ?_⟩
        · simp only [_validate_subnet, hws', Bool.false_eq_true, if_false,
            hnet]
          rw [if_pos (Or.inl hcb)]
        · exact append_ne_empty_left _ _ (data_append_ne_nil _ _
            (data_append_ne_nil _ _ (data_append_ne_nil _ _ (by decide))))

/-- C5 witness: `"10.0.0.1/24"` is parseable but differs from its
canonical rendering `"10.0.0.0/24"`, so the recommending message comes
back. -/
theorem spec_c5_witness :
    _validate_subnet (.str "10.0.0.1/24") .none =
      .ok (some ("'" ++ "10.0.0.1/24" ++
        "' isn't a recognized IP subnet cidr, '" ++
        ipnetCidrStr ⟨4, 167772161, 24⟩ ++ "' is recommended")) ∧
    ("'" ++ "10.0.0.1/24" ++ "' isn't a recognized IP subnet cidr, '" ++
      ipnetCidrStr ⟨4, 167772161, 24⟩ ++ "' is recommended") ≠ "" :=
  spec_c5.2.1 "10.0.0.1/24" ⟨4, 167772161, 24⟩ rfl rfl rfl (by decide)

/-! ### Claim C8 -/

/-- C8: for every enforcer state and context, `check_is_admin`
(respectively `check_is_advsvc`) returns `False` — rather than raising —
when `context_is_admin` (respectively `context_is_advsvc`) is absent
from the loaded rule names, and otherwise returns the boolean
enforcement result of that rule evaluated with the context's credentials
as both target and subject. -/
theorem spec_c8 (enforcer : Enforcer) (context : Context) :
    (enforcer.ruleNames.contains ADMIN_CTX_POLICY = false →
      check_is_admin enforcer context = false) ∧
    (enforcer.ruleNames.contains ADMIN_CTX_POLICY = true →
      check_is_admin enforcer context =
        enforcer.enforce ADMIN_CTX_POLICY context.to_dict context.to_dict) ∧
    (enforcer.ruleNames.contains ADVSVC_CTX_POLICY = false →
      check_is_advsvc enforcer context = false) ∧
    (enforcer.ruleNames.contains ADVSVC_CTX_POLICY = true →
      check_is_advsvc enforcer context =
        enforcer.enforce ADVSVC_CTX_POLICY context.to_dict
          context.to_dict) := by
  refine ⟨fun h => ?_, fun h => ?_, fun h => ?_, fun h => ?_⟩ <;>
    first
    | (unfold check_is_admin; rw [h]; simp)
    | (unfold check_is_advsvc; rw [h]; simp)

/-- C8 witness: an enforcer with no loaded rules answers `False` for
both checks; one with both rule names loaded answers with the rule
evaluation. -/
theorem spec_c8_witness :
    check_is_admin ⟨[], fun _ _ _ => true⟩ ⟨[]⟩ = false ∧
    check_is_advsvc ⟨[], fun _ _ _ => true⟩ ⟨[]⟩ = false ∧
    check_is_admin ⟨[ADMIN_CTX_POLICY, ADVSVC_CTX_POLICY],
        fun _ _ _ => true⟩ ⟨[]⟩ =
      (⟨[ADMIN_CTX_POLICY, ADVSVC_CTX_POLICY],
        fun _ _ _ => true⟩ : Enforcer).enforce ADMIN_CTX_POLICY [] [] :=
  ⟨(spec_c8 ⟨[], fun _ _ _ => true⟩ ⟨[]⟩).1 rfl,
   (spec_c8 ⟨[], fun _ _ _ => true⟩ ⟨[]⟩).2.2.1 rfl,
   (spec_c8 ⟨[ADMIN_CTX_POLICY, ADVSVC_CTX_POLICY], fun _ _ _ => true⟩
     ⟨[]⟩).2.1 (by decide)⟩

/-! ### Claim C9 -/

/-- C9: `UnorderedList` equality is permutation-invariant and
type-guarded — for every pair of lists that are permutations of each
other, the comparison (which sorts both operands with the externally
supplied sort key; an `UnorderedList` right operand is itself a list, so
both spellings of the claim land in the same case) evaluates to `True`,
provided the external key separates distinct elements (which is what
makes a sort key safe for this purpose); comparison against any
non-list operand yields `False`. -/
theorem spec_c9 {α β : Type} [DecidableEq α] [LinearOrder β]
    (key : α → β) (hinj : Function.Injective key) (xs ys : List α)
    (hperm : xs.Perm ys) :
    UnorderedList.eq key xs (.list ys) = true ∧
    UnorderedList.eq key xs PyOperand.nonList = false := by
  constructor
  · have hsort : pySortedByKey key xs = pySortedByKey key ys := by
      unfold pySortedByKey
      haveI : IsTotal α (fun a b => key a ≤ key b) :=
        ⟨fun a b => le_total (key a) (key b)⟩
      haveI : IsTrans α (fun a b => key a ≤ key b) :=
        ⟨fun _ _ _ hab hbc => le_trans hab hbc⟩
      haveI : IsAntisymm α (fun a b => key a ≤ key b) :=
        ⟨fun _ _ hab hba => hinj (le_antisymm hab hba)⟩
      exact List.eq_of_perm_of_sorted
        ((List.perm_insertionSort _ xs).trans
          (hperm.trans (List.perm_insertionSort _ ys).symm))
        (List.sorted_insertionSort _ xs) (List.sorted_insertionSort _ ys)
    simp [UnorderedList.eq, hsort]
  · rfl

/-- C9 witness: the spec's own example `[1, 2, 3]` against its
permutation `[3, 1, 2]` under the identity key, and against a non-list
operand. -/
theorem spec_c9_witness :
    UnorderedList.eq (fun n : Int => n) [1, 2, 3] (.list [3, 1, 2]) =
      true ∧
    UnorderedList.eq (fun n : Int => n) [1, 2, 3] PyOperand.nonList =
      false :=
  spec_c9 (fun n : Int => n) (fun _ _ h => h) [1, 2, 3] [3, 1, 2]
    (by decide)

end NeutronLib
